import Mathlib

/-!
# Verification of the OAuth authorization proxy (src/src/index.ts)

Shallow embedding of the OAuth proxy of the linkedin-api-mcp-server
repository: the signed-token (JWT) codec, the four process-wide stores,
the HTTP endpoint handlers (discovery, register, authorize, callback,
token, health), the background sweep, and the FastMCP `authenticate`
hook.

Modelling conventions:
* JavaScript `Map`s are modelled as functions `String → Option α`
  (`MapStr`); `Map.set` / `Map.get` / `Map.delete` are pointwise update,
  application and pointwise removal.  The iterate-and-delete of the reaper
  sweep is modelled pointwise, which is extensionally the same map.
* `Date.now()` and every `crypto.randomBytes(..)` value are inputs
  (an `Oracle` record): the embedding is deterministic in them.
* The cryptographic/encoding library calls (`crypto.createHmac(...)`,
  base64url + `JSON.stringify`/`JSON.parse` of the JWT payload,
  `JSON.parse` of the registration body, `new URLSearchParams(body)`,
  `new URL(string)` success) are external library primitives, passed in
  as function parameters (`Codec`, `Oracle.parseForm`, `Oracle.parseJson`,
  `Oracle.urlOk`).  The control flow around them is translated exactly.
* JavaScript string operations used by the source (`split(".")`,
  `startsWith`, `slice(7)`, template interpolation of `undefined`) are
  re-implemented on `String.data` so that their semantics are explicit.
* A JS truthiness test on a possibly-absent string (`!x`, `x || y`) is
  false exactly for `null`/`undefined` and `""`; `truthy` models it.
* An exception escaping the async request handler (an uncaught fault)
  is the `Outcome.fault` constructor; the bare `return` for `/mcp`
  paths (no response written) is `Outcome.handedOff`.
-/

namespace LinkedInMCP

/-! ## JavaScript string primitives -/

/-- JS `s.split(".")` on the character list: splits at every `'.'`,
keeping empty segments, and yields `[""]` on the empty string. -/
def splitDot : List Char → List (List Char)
  | [] => [[]]
  | c :: rest =>
    let r := splitDot rest
    if c = '.' then [] :: r
    else
      match r with
      | [] => [[c]]
      | h :: t => (c :: h) :: t

/-- JS `token.split(".")` as a list of strings. -/
def jwtSplit (s : String) : List String :=
  (splitDot s.data).map String.mk

/-- JS truthiness of a nullable string: `null`/`undefined` and `""` are falsy. -/
def truthy : Option String → Bool
  | none => false
  | some s => s ≠ ""

/-- JS template interpolation of a possibly-undefined string:
`undefined` prints as `"undefined"`. -/
def orUndefined (o : Option String) : String := o.getD "undefined"

/-- JS `s.startsWith(p)`. -/
def strStartsWith (p s : String) : Bool := p.data.isPrefixOf s.data

/-- JS `s.slice(n)` for a nonnegative `n`. -/
def strDrop (n : Nat) (s : String) : String := String.mk (s.data.drop n)

/-! ## Signed-token (JWT) codec — `createJWT` / `verifyJWT` -/

/-- The decoded JSON payload of a token: the caller-supplied claims
(string-valued, as produced by the proxy: `sub` and `scope`), plus the
`iat`/`exp`/`jti` fields that `createJWT` merges in.  A field absent
from the JSON is `none`. -/
structure JWTPayload where
  claims : List (String × String)
  iat : Option Int
  exp : Option Int
  jti : Option String
deriving DecidableEq, Repr

/-- The external library primitives `createJWT`/`verifyJWT` call:
`hmac m` is `crypto.createHmac("sha256", JWT_SECRET).update(m).digest("base64url")`
with the fixed process secret; `headerB64` is the base64url encoding of
the fixed header `{alg:"HS256",typ:"JWT"}`; `enc` is
base64url ∘ JSON.stringify on the payload and `dec` is the reverse
(`none` when `JSON.parse` throws). -/
structure Codec where
  hmac : String → String
  headerB64 : String
  enc : JWTPayload → String
  dec : String → Option JWTPayload

/-- The `fullPayload` object built by `createJWT` (line 49): the caller
payload merged with `iat`, `exp = iat + expiresIn` and the random `jti`. -/
def mintedPayload (payload : List (String × String)) (expiresIn nowSec : Int)
    (jtiRand : String) : JWTPayload :=
  { claims := payload, iat := some nowSec, exp := some (nowSec + expiresIn),
    jti := some jtiRand }

/-- `createJWT(payload, expiresIn)` (src/src/index.ts lines 46–62):
merges `iat = now`, `exp = now + expiresIn` and a fresh random `jti`
into the payload and returns `headerB64.payloadB64.signature`. -/
def createJWT (c : Codec) (payload : List (String × String)) (expiresIn : Int)
    (nowSec : Int) (jtiRand : String) : String :=
  let fullPayload : JWTPayload := mintedPayload payload expiresIn nowSec jtiRand
  let headerB64 := c.headerB64
  let payloadB64 := c.enc fullPayload
  let signature := c.hmac (headerB64 ++ "." ++ payloadB64)
  headerB64 ++ "." ++ payloadB64 ++ "." ++ signature

/-- `verifyJWT(token)` (src/src/index.ts lines 64–78).  Destructures the
first three segments of `token.split(".")` (missing segments are JS
`undefined`, interpolated as `"undefined"`), recomputes the signature,
rejects on mismatch, decodes the payload (`none` = `JSON.parse` threw,
caught by the surrounding `try`), and rejects when `payload.exp` is
truthy (present and nonzero) and less than the current time.  Returns
`none` for `{valid:false}` and `some payload` for `{valid:true,payload}`. -/
def verifyJWT (c : Codec) (nowSec : Int) (token : String) : Option JWTPayload :=
  let parts := jwtSplit token
  let headerB64 := parts.get? 0
  let payloadB64 := parts.get? 1
  let signature := parts.get? 2
  let expectedSig := c.hmac (orUndefined headerB64 ++ "." ++ orUndefined payloadB64)
  if signature = some expectedSig then
    match c.dec (orUndefined payloadB64) with
    | none => none
    | some payload =>
      match payload.exp with
      | some e => if e ≠ 0 ∧ e < nowSec then none else some payload
      | none => some payload
  else none

/-! ## Data model: sessions, transactions, codes, stores -/

/-- The upstream credential bundle (`LinkedInSession`). -/
structure LinkedInSession where
  accessToken : String
  refreshToken : Option String
  expiresAt : Int
  scope : Option (List String)
deriving DecidableEq, Repr

/-- `OAuthTransaction` (src/src/index.ts lines 81–89). -/
structure OAuthTransaction where
  clientId : String
  redirectUri : String
  state : String
  codeChallenge : Option String
  codeChallengeMethod : Option String
  scope : List String
  createdAt : Int
deriving DecidableEq, Repr

/-- `AuthCode` (src/src/index.ts lines 91–97). -/
structure AuthCode where
  clientId : String
  redirectUri : String
  linkedInTokens : LinkedInSession
  createdAt : Int
  used : Bool
deriving DecidableEq, Repr

/-- A registered downstream client (src/src/index.ts line 101). -/
structure RegisteredClient where
  redirectUris : List String
  createdAt : Int
deriving DecidableEq, Repr

/-- A `tokenStore` entry (src/src/index.ts line 102). -/
structure TokenRecord where
  linkedInTokens : LinkedInSession
  createdAt : Int
deriving DecidableEq, Repr

/-- A JS `Map<string, α>` as a function. -/
def MapStr (α : Type) : Type := String → Option α

/-- `Map.get`. -/
def mget {α : Type} (m : MapStr α) (k : String) : Option α := m k

/-- `Map.set`. -/
def mset {α : Type} (m : MapStr α) (k : String) (v : α) : MapStr α :=
  fun k' => if k' = k then some v else m k'

/-- `Map.delete`. -/
def mdel {α : Type} (m : MapStr α) (k : String) : MapStr α :=
  fun k' => if k' = k then none else m k'

/-- The empty map. -/
def memp {α : Type} : MapStr α := fun _ => none

/-- The four process-wide stores (src/src/index.ts lines 99–102). -/
structure ServerState where
  transactions : MapStr OAuthTransaction
  authCodes : MapStr AuthCode
  registeredClients : MapStr RegisteredClient
  tokenStore : MapStr TokenRecord

/-- The state at process start: all four stores empty. -/
def initialState : ServerState :=
  { transactions := memp, authCodes := memp,
    registeredClients := memp, tokenStore := memp }

/-! ## Constants -/

/-- `LINKEDIN_AUTH_ENDPOINT` (line 21). -/
def LINKEDIN_AUTH_ENDPOINT : String := "https://www.linkedin.com/oauth/v2/authorization"

/-- `LINKEDIN_SCOPES` (line 25). -/
def LINKEDIN_SCOPES : List String := ["openid", "profile", "email", "w_member_social"]

/-- `LINKEDIN_SCOPES.join(" ")`. -/
def scopeStr : String := String.intercalate " " LINKEDIN_SCOPES

/-- `baseUrl` (line 32) with the default environment (`HOST=localhost`,
`PORT=3000`, no `BASE_URL`). -/
def baseUrl : String := "http://localhost:3000"

/-- `process.env.LINKEDIN_CLIENT_ID` (lines 28, 252): the upstream application id of the proxy itself, fixed for the process. -/
def upstreamClientId : String := "linkedin-upstream-client-id"

/-! ## Background reaper (src/src/index.ts lines 104–110) -/

/-- The part of a sweep tick for one store: drop every entry whose age
`now - createdAt` strictly exceeds `ttl` (pointwise form of the
iterate-and-delete loop). -/
def sweepBy {α : Type} (nowMs ttl : Int) (created : α → Int) (m : MapStr α) : MapStr α :=
  fun k =>
    match m k with
    | some v => if nowMs - created v > ttl then none else some v
    | none => none

/-- One tick of the `setInterval` sweep: transactions (TTL 600000 ms),
authorization codes (TTL 300000 ms) and the token store (TTL 3600000 ms)
are swept; `registeredClients` is not. -/
def sweep (nowMs : Int) (s : ServerState) : ServerState :=
  { s with
    transactions := sweepBy nowMs 600000 OAuthTransaction.createdAt s.transactions,
    authCodes := sweepBy nowMs 300000 AuthCode.createdAt s.authCodes,
    tokenStore := sweepBy nowMs 3600000 TokenRecord.createdAt s.tokenStore }

/-! ## HTTP surface -/

/-- The parsed JSON body of a registration request (`body.redirect_uris`). -/
structure RegisterBody where
  redirect_uris : Option (List String)
deriving DecidableEq, Repr

/-- A JSON response body, by shape.  The static discovery/registration
documents carry their identifying fields; the remaining constant fields
of those documents are fixed by the source and elided here. -/
inductive JsonOut where
  | oauthError (error : String) (error_description : Option String)
  | tokenIssued (access_token : String) (token_type : String)
      (expires_in : Int) (scope : String)
  | discoveryDoc (issuer authorization_endpoint token_endpoint
      registration_endpoint : String)
  | clientRegistered (client_id client_secret : String)
      (redirect_uris : Option (List String))
  | healthOk
  | notFound
deriving DecidableEq, Repr

/-- A redirect `Location`: the base URL string plus the query parameters
set on it with `searchParams.set`, in order. -/
structure RedirectTarget where
  base : String
  params : List (String × String)
deriving DecidableEq, Repr

/-- What one invocation of the request handler does. -/
inductive Outcome where
  | respond (status : Nat) (body : JsonOut)
  | redirect (location : RedirectTarget)
  | preflight
  | handedOff
  | fault (msg : String)
deriving DecidableEq, Repr

/-- An inbound HTTP request, with the URL already parsed: method, path,
query parameters (in order; `searchParams.get` takes the first value)
and raw body. -/
structure Request where
  method : String
  path : String
  query : List (String × String)
  body : String
deriving DecidableEq, Repr

/-- `url.searchParams.get(k)` / `URLSearchParams.get(k)`: first value or null. -/
def pget (q : List (String × String)) (k : String) : Option String :=
  (q.find? (fun kv => kv.1 = k)).map (fun kv => kv.2)

/-- The per-request environment inputs: the clock, each
`crypto.randomBytes(..)` draw, the outcome of the awaited upstream
LinkedIn code exchange (`Except.error e` = `exchangeLinkedInCode` threw
with message `e`), and the library parsers (`parseForm` =
`new URLSearchParams(body)`, total; `parseJson` = `JSON.parse`, `none`
when it throws; `urlOk s` = whether `new URL(s)` succeeds). -/
structure Oracle where
  nowMs : Int
  randState : String
  randTxnId : String
  randClientId : String
  randOurCode : String
  randJti : String
  randJwtJti : String
  exchange : Except String LinkedInSession
  parseForm : String → List (String × String)
  parseJson : String → Option RegisterBody
  urlOk : String → Bool

/-- `POST /oauth/register` (lines 200–221).  `JSON.parse` of an invalid
body throws out of the async handler: an uncaught fault. -/
def registerEndpoint (o : Oracle) (req : Request) (s : ServerState) :
    Outcome × ServerState :=
  match o.parseJson req.body with
  | none => (.fault "SyntaxError: Unexpected token in JSON", s)
  | some body =>
    let cid := o.randClientId
    let entry : RegisteredClient :=
      { redirectUris := body.redirect_uris.getD [], createdAt := o.nowMs }
    let s' := { s with registeredClients := mset s.registeredClients cid entry }
    (.respond 200 (.clientRegistered cid cid body.redirect_uris), s')

/-- The transaction object the authorize endpoint stores (lines
239–247): a missing or empty downstream `state` is replaced by a fresh
random hex value, an empty PKCE challenge/method becomes absent, and a
missing `scope` defaults to the fixed supported scope list. -/
def authTxnOf (o : Oracle) (req : Request) : OAuthTransaction :=
  let state :=
    match pget req.query "state" with
    | some st => if st = "" then o.randState else st
    | none => o.randState
  let scope := pget req.query "scope"
  let codeChallenge := pget req.query "code_challenge"
  let codeChallengeMethod := pget req.query "code_challenge_method"
  { clientId := (pget req.query "client_id").getD "",
    redirectUri := (pget req.query "redirect_uri").getD "",
    state := state,
    codeChallenge := if truthy codeChallenge then codeChallenge else none,
    codeChallengeMethod :=
      if truthy codeChallengeMethod then codeChallengeMethod else none,
    scope := match scope with
      | some sc => sc.splitOn " "
      | none => LINKEDIN_SCOPES,
    createdAt := o.nowMs }

/-- `GET /oauth/authorize` (lines 224–262).  A falsy `client_id` or
`redirect_uri`, or a `response_type` other than `"code"`, is a 400
`invalid_request`; otherwise a transaction is stored under a fresh
random id and the response is a 302 to LinkedIn with the transaction id
as the upstream `state`. -/
def authorizeEndpoint (o : Oracle) (req : Request) (s : ServerState) :
    Outcome × ServerState :=
  let clientId := pget req.query "client_id"
  let redirectUri := pget req.query "redirect_uri"
  let responseType := pget req.query "response_type"
  if ¬ truthy clientId ∨ ¬ truthy redirectUri ∨ responseType ≠ some "code" then
    (.respond 400 (.oauthError "invalid_request" (some "Missing required parameters")), s)
  else
    let txnId := o.randTxnId
    let s' := { s with transactions := mset s.transactions txnId (authTxnOf o req) }
    (.redirect
      { base := LINKEDIN_AUTH_ENDPOINT,
        params := [("response_type", "code"), ("client_id", upstreamClientId),
                   ("redirect_uri", baseUrl ++ "/oauth/callback"),
                   ("state", txnId), ("scope", scopeStr)] }, s')

/-- `GET /oauth/callback` (lines 265–323).  On a live transaction, the
awaited upstream exchange either succeeds — an authorization code is
stored, the transaction deleted, and the client redirected with the code
and the original downstream state — or throws, in which case the `catch`
redirects with `error=server_error` and the transaction is left in the
store.  `new URL(txn.redirectUri)` throwing (in the `try` or again in
the `catch`) escapes as an uncaught fault. -/
def callbackEndpoint (o : Oracle) (req : Request) (s : ServerState) :
    Outcome × ServerState :=
  let code := pget req.query "code"
  let txnIdOpt := pget req.query "state"
  let error := pget req.query "error"
  let errorDesc := pget req.query "error_description"
  if truthy error then
    (.respond 400 (.oauthError (error.getD "") errorDesc), s)
  else if ¬ truthy code ∨ ¬ truthy txnIdOpt then
    (.respond 400 (.oauthError "invalid_request" (some "Missing code or state")), s)
  else
    let txnId := txnIdOpt.getD ""
    match mget s.transactions txnId with
    | none =>
      (.respond 400 (.oauthError "invalid_request" (some "Invalid or expired state")), s)
    | some txn =>
      match o.exchange with
      | .ok linkedInTokens =>
        let ourCode := o.randOurCode
        let entry : AuthCode :=
          { clientId := txn.clientId, redirectUri := txn.redirectUri,
            linkedInTokens := linkedInTokens, createdAt := o.nowMs, used := false }
        let s1 := { s with authCodes := mset s.authCodes ourCode entry }
        let s2 := { s1 with transactions := mdel s1.transactions txnId }
        if o.urlOk txn.redirectUri then
          (.redirect { base := txn.redirectUri,
                       params := [("code", ourCode), ("state", txn.state)] }, s2)
        else (.fault "TypeError: Invalid URL", s2)
      | .error err =>
        if o.urlOk txn.redirectUri then
          (.redirect { base := txn.redirectUri,
                       params := [("error", "server_error"),
                                  ("error_description", err),
                                  ("state", txn.state)] }, s)
        else (.fault "TypeError: Invalid URL", s)

/-- `POST /oauth/token` (lines 326–371), after the awaited body read:
from that point the handler runs without a suspension point, so this
whole function is one atomic step with respect to other handlers.
Only `grant_type=authorization_code` is accepted; the code must be
stored and unused; it is then marked used, a JWT is minted with a fresh
random `sub`, and the credential bundle is stored under that `sub`. -/
def tokenEndpoint (c : Codec) (o : Oracle) (params : List (String × String))
    (s : ServerState) : Outcome × ServerState :=
  let grantType := pget params "grant_type"
  let code := pget params "code"
  if grantType = some "authorization_code" then
    if ¬ truthy code then
      (.respond 400 (.oauthError "invalid_request" (some "Missing code")), s)
    else
      let cd := code.getD ""
      match mget s.authCodes cd with
      | none =>
        (.respond 400 (.oauthError "invalid_grant" (some "Invalid or expired code")), s)
      | some authCode =>
        if authCode.used then
          (.respond 400 (.oauthError "invalid_grant" (some "Code already used")), s)
        else
          let usedCode : AuthCode := { authCode with used := true }
          let s1 := { s with authCodes := mset s.authCodes cd usedCode }
          let jti := o.randJti
          let accessToken :=
            createJWT c [("sub", jti), ("scope", scopeStr)] 3600 (o.nowMs / 1000) o.randJwtJti
          let record : TokenRecord :=
            { linkedInTokens := authCode.linkedInTokens, createdAt := o.nowMs }
          let s2 := { s1 with tokenStore := mset s1.tokenStore jti record }
          (.respond 200 (.tokenIssued accessToken "Bearer" 3600 scopeStr), s2)
  else
    (.respond 400 (.oauthError "unsupported_grant_type" none), s)

/-- The whole request handler of `createOAuthMCPServer` (lines 154–388),
dispatching in source order: CORS preflight, discovery, registration,
authorize, callback, token, health, `/mcp` pass-through (no response
written), 404. -/
def handleRequest (c : Codec) (o : Oracle) (req : Request) (s : ServerState) :
    Outcome × ServerState :=
  if req.method = "OPTIONS" then (.preflight, s)
  else if req.path = "/.well-known/oauth-authorization-server" then
    (.respond 200 (.discoveryDoc baseUrl (baseUrl ++ "/oauth/authorize")
      (baseUrl ++ "/oauth/token") (baseUrl ++ "/oauth/register")), s)
  else if req.path = "/oauth/register" ∧ req.method = "POST" then
    registerEndpoint o req s
  else if req.path = "/oauth/authorize" then
    authorizeEndpoint o req s
  else if req.path = "/oauth/callback" then
    callbackEndpoint o req s
  else if req.path = "/oauth/token" ∧ req.method = "POST" then
    tokenEndpoint c o (o.parseForm req.body) s
  else if req.path = "/health" then
    (.respond 200 .healthOk, s)
  else if strStartsWith "/mcp" req.path then
    (.handedOff, s)
  else
    (.respond 404 .notFound, s)

/-! ## Tool authenticator (src/src/index.ts lines 438–460) -/

/-- JS object property read `payload.sub` on the decoded claims. -/
def getClaim (claims : List (String × String)) (k : String) : Option String :=
  (claims.find? (fun kv => kv.1 = k)).map (fun kv => kv.2)

/-- The FastMCP `authenticate` hook: requires a `Bearer ` authorization
header, verifies the JWT, requires a truthy `sub` claim, and resolves it
in the token store; any failure yields `none` (unauthenticated). -/
def authenticate (c : Codec) (nowSec : Int) (authHeader : Option String)
    (store : MapStr TokenRecord) : Option LinkedInSession :=
  match authHeader with
  | none => none
  | some h =>
    if strStartsWith "Bearer " h then
      let token := strDrop 7 h
      match verifyJWT c nowSec token with
      | none => none
      | some payload =>
        match getClaim payload.claims "sub" with
        | none => none
        | some sub =>
          if sub = "" then none
          else
            match mget store sub with
            | none => none
            | some stored => some stored.linkedInTokens
    else none

/-! ## Concrete fixtures (used to evaluate the theorems on closed inputs) -/

/-- A concrete upstream credential bundle. -/
def sampleSession : LinkedInSession :=
  { accessToken := "upstream-access", refreshToken := some "upstream-refresh",
    expiresAt := 999999, scope := some ["openid"] }

/-- A concrete codec whose primitives satisfy, on the single payload
`fp`, the properties the real base64url/HMAC primitives have (dot-free
outputs, decode inverts encode). -/
def mkCodec (fp : JWTPayload) : Codec :=
  { hmac := fun _ => "SIG", headerB64 := "HDR",
    enc := fun _ => "PAY",
    dec := fun s => if s = "PAY" then some fp else none }

/-- A concrete oracle: time zero, fixed random draws, successful
upstream exchange, trivial parsers. -/
def oracleBase : Oracle :=
  { nowMs := 0, randState := "GENSTATE", randTxnId := "TXNID",
    randClientId := "NEWCLIENT", randOurCode := "OURCODE", randJti := "JTI",
    randJwtJti := "JWTJTI", exchange := .ok sampleSession,
    parseForm := fun _ => [], parseJson := fun _ => some { redirect_uris := none },
    urlOk := fun _ => true }

/-- A stored, unused authorization code carrying `sampleSession`. -/
def acSample : AuthCode :=
  { clientId := "abc", redirectUri := "https://app/cb",
    linkedInTokens := sampleSession, createdAt := 0, used := false }

/-- A server state holding the single authorization code `"CODE"`. -/
def stateWithAC : ServerState :=
  { initialState with authCodes := mset memp "CODE" acSample }

/-- A live transaction for a downstream client. -/
def txnSample : OAuthTransaction :=
  { clientId := "abc", redirectUri := "https://app/cb", state := "xyz",
    codeChallenge := none, codeChallengeMethod := none,
    scope := LINKEDIN_SCOPES, createdAt := 0 }

/-- A server state holding the single transaction `"TXNID"`. -/
def stateWithTxn : ServerState :=
  { initialState with transactions := mset memp "TXNID" txnSample }

/-- The form parameters of a redemption request for `"CODE"`. -/
def tokenParams : List (String × String) :=
  [("grant_type", "authorization_code"), ("code", "CODE")]

/-- The JWT payload the token endpoint mints under `oracleBase`. -/
def fpIssued : JWTPayload :=
  { claims := [("sub", "JTI"), ("scope", scopeStr)], iat := some 0,
    exp := some 3600, jti := some "JWTJTI" }

/-- `oracleBase` whose form parser yields the redemption parameters. -/
def oTok : Oracle := { oracleBase with parseForm := fun _ => tokenParams }

/-- A concrete redemption request. -/
def tokReq : Request :=
  { method := "POST", path := "/oauth/token", query := [],
    body := "grant_type=authorization_code&code=CODE" }

/-- Redemption parameters additionally carrying a mismatched
`redirect_uri` and a `code_verifier`. -/
def staleParams : List (String × String) :=
  [("grant_type", "authorization_code"), ("code", "CODE"),
   ("redirect_uri", "https://evil.example/cb"), ("code_verifier", "v")]

/-- An oracle whose clock is far past the authorization-code TTL. -/
def oStale : Oracle :=
  { oracleBase with nowMs := 10000000, parseForm := fun _ => staleParams }

/-- An authorize request missing `redirect_uri`. -/
def authReqBad : Request :=
  { method := "GET", path := "/oauth/authorize",
    query := [("client_id", "abc"), ("response_type", "code")], body := "" }

/-- A fully valid authorize request with a client-supplied state. -/
def authReqGood : Request :=
  { method := "GET", path := "/oauth/authorize",
    query := [("client_id", "abc"), ("redirect_uri", "https://app/cb"),
              ("response_type", "code"), ("state", "xyz")], body := "" }

/-- A valid authorize request with no `state` parameter. -/
def authReqNoState : Request :=
  { method := "GET", path := "/oauth/authorize",
    query := [("client_id", "abc"), ("redirect_uri", "https://app/cb"),
              ("response_type", "code")], body := "" }

/-- An upstream callback request for transaction `"TXNID"`. -/
def cbReq : Request :=
  { method := "GET", path := "/oauth/callback",
    query := [("code", "UC1"), ("state", "TXNID")], body := "" }

/-- An oracle whose upstream exchange throws. -/
def oErr : Oracle := { oracleBase with exchange := .error "upstream exchange failed" }

/-- A registration request whose body is not valid JSON. -/
def regReqBad : Request :=
  { method := "POST", path := "/oauth/register", query := [],
    body := "this is not json" }

/-- An oracle whose body parser rejects (models `JSON.parse` throwing). -/
def oBadJson : Oracle := { oracleBase with parseJson := fun _ => none }

/-- A decoded payload with no `exp` field. -/
def fpNoExp : JWTPayload := { claims := [], iat := none, exp := none, jti := none }

/-- The payload minted by `createJWT` for claims `[("k","v")]`, TTL 10,
issued at time 0 with random id `"JRAND"`. -/
def fp3 : JWTPayload := mintedPayload [("k", "v")] 10 0 "JRAND"

/-! ## Helper lemmas -/

theorem splitDot_of_not_mem {cs : List Char} (h : '.' ∉ cs) : splitDot cs = [cs] := by
  induction cs with
  | nil => rfl
  | cons c rest ih =>
    have hc : c ≠ '.' := fun hc => h (hc ▸ List.mem_cons_self c rest)
    have hr : '.' ∉ rest := fun hm => h (List.mem_cons_of_mem c hm)
    simp [splitDot, hc, ih hr]

theorem splitDot_append {a : List Char} (rest : List Char) (h : '.' ∉ a) :
    splitDot (a ++ '.' :: rest) = a :: splitDot rest := by
  induction a with
  | nil => simp [splitDot]
  | cons c a' ih =>
    have hc : c ≠ '.' := fun hc => h (hc ▸ List.mem_cons_self c a')
    have ha : '.' ∉ a' := fun hm => h (List.mem_cons_of_mem c hm)
    simp [splitDot, hc, ih ha]

theorem data_append (s t : String) : (s ++ t).data = s.data ++ t.data := rfl

/-- JS `split(".")` of a dot-joined triple of dot-free strings. -/
theorem jwtSplit_three {h p s : String} (hh : '.' ∉ h.data) (hp : '.' ∉ p.data)
    (hs : '.' ∉ s.data) : jwtSplit (h ++ "." ++ p ++ "." ++ s) = [h, p, s] := by
  have e : (h ++ "." ++ p ++ "." ++ s).data
      = h.data ++ '.' :: (p.data ++ '.' :: s.data) := by
    simp [data_append]
  rw [jwtSplit, e, splitDot_append _ hh, splitDot_append _ hp, splitDot_of_not_mem hs]
  rfl

theorem mget_mset_self {α : Type} (m : MapStr α) (k : String) (v : α) :
    mget (mset m k v) k = some v := by
  simp [mget, mset]

theorem mget_mset_ne {α : Type} (m : MapStr α) {k k' : String} (v : α)
    (h : k' ≠ k) : mget (mset m k v) k' = mget m k' := by
  simp [mget, mset, h]

theorem strStartsWith_append (p t : String) : strStartsWith p (p ++ t) = true := by
  rw [strStartsWith, data_append]
  induction p.data with
  | nil => simp [List.isPrefixOf]
  | cons c cs ih => simp [List.isPrefixOf, ih]

theorem strDrop_bearer (t : String) : strDrop 7 ("Bearer " ++ t) = t := by
  rw [strDrop, data_append]
  have : ("Bearer " : String).data.length = 7 := rfl
  rw [← this, List.drop_left]

/-- Round-trip of the token codec: a token minted by `createJWT` passes
`verifyJWT` at any time up to its expiry, and decodes to exactly the
minted payload — given that the codec primitives behave as the real
base64url/HMAC primitives do on the values involved (dot-free encodings,
decode inverts encode). -/
theorem verifyJWT_createJWT (c : Codec) (payload : List (String × String))
    (expiresIn nowSec : Int) (jtiRand : String) (nowSec2 : Int)
    (fp : JWTPayload)
    (hfp : fp = mintedPayload payload expiresIn nowSec jtiRand)
    (hh : '.' ∉ c.headerB64.data)
    (hp : '.' ∉ (c.enc fp).data)
    (hs : '.' ∉ (c.hmac (c.headerB64 ++ "." ++ c.enc fp)).data)
    (hdec : c.dec (c.enc fp) = some fp)
    (hnow : nowSec2 ≤ nowSec + expiresIn) :
    verifyJWT c nowSec2 (createJWT c payload expiresIn nowSec jtiRand) = some fp := by
  rw [createJWT, verifyJWT]
  simp only [← hfp]
  rw [jwtSplit_three hh hp hs]
  have hcond : ¬(nowSec + expiresIn ≠ 0 ∧ nowSec + expiresIn < nowSec2) := by omega
  simp only [List.get?, orUndefined, Option.getD]
  rw [if_pos trivial, hdec]
  subst hfp
  simp [mintedPayload, hcond]

/-- Dispatch: a non-OPTIONS `POST /oauth/token` request is handled by the
token endpoint on the parsed form body. -/
theorem handleRequest_token (c : Codec) (o : Oracle) (req : Request) (s : ServerState)
    (hp : req.path = "/oauth/token") (hm : req.method = "POST") :
    handleRequest c o req s = tokenEndpoint c o (o.parseForm req.body) s := by
  rw [handleRequest, hp, hm]
  rw [if_neg (by decide), if_neg (by decide), if_neg (by decide), if_neg (by decide),
    if_neg (by decide), if_pos (by decide)]

/-- Dispatch: a `GET /oauth/authorize` request is handled by the
authorize endpoint. -/
theorem handleRequest_authorize (c : Codec) (o : Oracle) (req : Request) (s : ServerState)
    (hp : req.path = "/oauth/authorize") (hm : req.method = "GET") :
    handleRequest c o req s = authorizeEndpoint o req s := by
  rw [handleRequest, hp, hm]
  rw [if_neg (by decide), if_neg (by decide), if_neg (by decide), if_pos (by decide)]

/-- Dispatch: a `GET /oauth/callback` request is handled by the callback
endpoint. -/
theorem handleRequest_callback (c : Codec) (o : Oracle) (req : Request) (s : ServerState)
    (hp : req.path = "/oauth/callback") (hm : req.method = "GET") :
    handleRequest c o req s = callbackEndpoint o req s := by
  rw [handleRequest, hp, hm]
  rw [if_neg (by decide), if_neg (by decide), if_neg (by decide), if_neg (by decide),
    if_pos (by decide)]

/-- Dispatch: a `POST /oauth/register` request is handled by the
registration endpoint. -/
theorem handleRequest_register (c : Codec) (o : Oracle) (req : Request) (s : ServerState)
    (hp : req.path = "/oauth/register") (hm : req.method = "POST") :
    handleRequest c o req s = registerEndpoint o req s := by
  rw [handleRequest, hp, hm]
  rw [if_neg (by decide), if_neg (by decide), if_pos (by decide)]

/-- A falsy `client_id` or `redirect_uri`, or a wrong `response_type`,
makes the authorize endpoint answer 400 and leave the state untouched. -/
theorem authorizeEndpoint_reject (o : Oracle) (req : Request) (s : ServerState)
    (hbad : ¬ truthy (pget req.query "client_id") ∨ ¬ truthy (pget req.query "redirect_uri")
      ∨ pget req.query "response_type" ≠ some "code") :
    authorizeEndpoint o req s =
      (.respond 400 (.oauthError "invalid_request" (some "Missing required parameters")), s) := by
  simp only [authorizeEndpoint]
  rw [if_pos hbad]

/-- A valid authorize request stores a transaction under the fresh
random id and redirects to the upstream authorization endpoint. -/
theorem authorizeEndpoint_accept (o : Oracle) (req : Request) (s : ServerState)
    (hcid : truthy (pget req.query "client_id"))
    (hre : truthy (pget req.query "redirect_uri"))
    (hrt : pget req.query "response_type" = some "code") :
    authorizeEndpoint o req s =
      (.redirect
        { base := LINKEDIN_AUTH_ENDPOINT,
          params := [("response_type", "code"), ("client_id", upstreamClientId),
                     ("redirect_uri", baseUrl ++ "/oauth/callback"),
                     ("state", o.randTxnId), ("scope", scopeStr)] },
        { s with transactions := mset s.transactions o.randTxnId (authTxnOf o req) }) := by
  simp only [authorizeEndpoint]
  rw [if_neg (by simp [hcid, hre, hrt])]

/-- Callback on a live transaction with a successful upstream exchange:
an authorization code is minted, the transaction deleted, and the
client redirected with the code and the stored downstream state. -/
theorem callbackEndpoint_success (o : Oracle) (req : Request) (s : ServerState)
    (txnId : String) (txn : OAuthTransaction) (bundle : LinkedInSession)
    (herr : truthy (pget req.query "error") = false)
    (hcode : truthy (pget req.query "code") = true)
    (hst : pget req.query "state" = some txnId) (hne : txnId ≠ "")
    (htxn : mget s.transactions txnId = some txn)
    (hex : o.exchange = .ok bundle)
    (hurl : o.urlOk txn.redirectUri = true) :
    callbackEndpoint o req s =
      (.redirect { base := txn.redirectUri,
                   params := [("code", o.randOurCode), ("state", txn.state)] },
        { s with
          transactions := mdel s.transactions txnId,
          authCodes := mset s.authCodes o.randOurCode
            ({ clientId := txn.clientId, redirectUri := txn.redirectUri,
               linkedInTokens := bundle, createdAt := o.nowMs, used := false }) }) := by
  simp only [callbackEndpoint, hst]
  rw [if_neg (by simp [herr]), if_neg (by simp only [hcode]; simp [truthy, hne])]
  simp only [Option.getD_some, htxn, hex, hurl, if_true]

/-- Callback on a live transaction whose upstream exchange throws: the
client is redirected with `error=server_error` and the whole state —
in particular the transaction — is left unchanged. -/
theorem callbackEndpoint_exchange_error (o : Oracle) (req : Request) (s : ServerState)
    (txnId : String) (txn : OAuthTransaction) (err : String)
    (herr : truthy (pget req.query "error") = false)
    (hcode : truthy (pget req.query "code") = true)
    (hst : pget req.query "state" = some txnId) (hne : txnId ≠ "")
    (htxn : mget s.transactions txnId = some txn)
    (hex : o.exchange = .error err)
    (hurl : o.urlOk txn.redirectUri = true) :
    callbackEndpoint o req s =
      (.redirect { base := txn.redirectUri,
                   params := [("error", "server_error"), ("error_description", err),
                              ("state", txn.state)] }, s) := by
  simp only [callbackEndpoint, hst]
  rw [if_neg (by simp [herr]), if_neg (by simp only [hcode]; simp [truthy, hne])]
  simp only [Option.getD_some, htxn, hex, hurl, if_true]

/-- Successful redemption: with `grant_type=authorization_code` and a
stored unused code, the token endpoint issues a bearer JWT, marks the
code used, and stores the credential bundle under the fresh `sub`. -/
theorem tokenEndpoint_success (c : Codec) (o : Oracle) (P : List (String × String))
    (s : ServerState) (cd : String) (ac : AuthCode)
    (hg : pget P "grant_type" = some "authorization_code")
    (hc : pget P "code" = some cd) (hcd : cd ≠ "")
    (hstored : mget s.authCodes cd = some ac) (hunused : ac.used = false) :
    tokenEndpoint c o P s =
      (.respond 200 (.tokenIssued
          (createJWT c [("sub", o.randJti), ("scope", scopeStr)] 3600
            (o.nowMs / 1000) o.randJwtJti) "Bearer" 3600 scopeStr),
        { s with
          authCodes := mset s.authCodes cd { ac with used := true },
          tokenStore := mset s.tokenStore o.randJti
            { linkedInTokens := ac.linkedInTokens, createdAt := o.nowMs } }) := by
  rw [tokenEndpoint, hg, hc]
  simp [truthy, hcd, hstored, hunused]

/-- Redemption of a code already marked used fails with
`invalid_grant` / `Code already used` and leaves the state unchanged. -/
theorem tokenEndpoint_already_used (c : Codec) (o : Oracle) (P : List (String × String))
    (s : ServerState) (cd : String) (ac : AuthCode)
    (hg : pget P "grant_type" = some "authorization_code")
    (hc : pget P "code" = some cd) (hcd : cd ≠ "")
    (hstored : mget s.authCodes cd = some ac) (hused : ac.used = true) :
    tokenEndpoint c o P s =
      (.respond 400 (.oauthError "invalid_grant" (some "Code already used")), s) := by
  rw [tokenEndpoint, hg, hc]
  simp [truthy, hcd, hstored, hused]

/-- **C1**: for every authorization code stored by the callback handler,
at most one redemption at `POST /oauth/token` succeeds: the first
request with `grant_type=authorization_code` and that code returns 200
with a bearer token, and every later request presenting the same code
returns 400 `invalid_grant` (code already used), even back-to-back.
The check of the `used` flag and the marking as used are one atomic
step of the model (`tokenEndpoint` runs after the awaited body read and
contains no further suspension point in the source), so two
back-to-back redemptions compose sequentially, as stated here. -/
theorem C1_single_use_redemption
    (c₁ c₂ : Codec) (o₁ o₂ : Oracle) (req₁ req₂ : Request) (s : ServerState)
    (cd : String) (ac : AuthCode)
    (hp₁ : req₁.path = "/oauth/token") (hm₁ : req₁.method = "POST")
    (hp₂ : req₂.path = "/oauth/token") (hm₂ : req₂.method = "POST")
    (hg₁ : pget (o₁.parseForm req₁.body) "grant_type" = some "authorization_code")
    (hc₁ : pget (o₁.parseForm req₁.body) "code" = some cd)
    (hg₂ : pget (o₂.parseForm req₂.body) "grant_type" = some "authorization_code")
    (hc₂ : pget (o₂.parseForm req₂.body) "code" = some cd)
    (hcd : cd ≠ "")
    (hstored : mget s.authCodes cd = some ac)
    (hunused : ac.used = false) :
    (handleRequest c₁ o₁ req₁ s).1 =
      .respond 200 (.tokenIssued
        (createJWT c₁ [("sub", o₁.randJti), ("scope", scopeStr)] 3600
          (o₁.nowMs / 1000) o₁.randJwtJti) "Bearer" 3600 scopeStr)
    ∧ (handleRequest c₂ o₂ req₂ (handleRequest c₁ o₁ req₁ s).2).1 =
      .respond 400 (.oauthError "invalid_grant" (some "Code already used")) := by
  rw [handleRequest_token c₁ o₁ req₁ s hp₁ hm₁,
    handleRequest_token c₂ o₂ req₂ _ hp₂ hm₂,
    tokenEndpoint_success c₁ o₁ _ s cd ac hg₁ hc₁ hcd hstored hunused]
  refine ⟨rfl, ?_⟩
  rw [tokenEndpoint_already_used c₂ o₂ _ _ cd { ac with used := true } hg₂ hc₂ hcd
    (by simp [mget_mset_self]) rfl]

/-- Witness for C1: a concrete stored code `"CODE"`; the first
redemption returns 200 with the minted JWT, the immediate second
redemption returns 400 `invalid_grant` / `Code already used`. -/
theorem C1_single_use_redemption_witness :
    (handleRequest (mkCodec fpIssued) oTok tokReq stateWithAC).1 =
      .respond 200 (.tokenIssued
        (createJWT (mkCodec fpIssued) [("sub", "JTI"), ("scope", scopeStr)] 3600 0 "JWTJTI")
        "Bearer" 3600 scopeStr)
    ∧ (handleRequest (mkCodec fpIssued) oTok tokReq
        (handleRequest (mkCodec fpIssued) oTok tokReq stateWithAC).2).1 =
      .respond 400 (.oauthError "invalid_grant" (some "Code already used")) := by
  have h := C1_single_use_redemption (mkCodec fpIssued) (mkCodec fpIssued) oTok oTok
    tokReq tokReq stateWithAC "CODE" acSample rfl rfl rfl rfl (by decide) (by decide)
    (by decide) (by decide) (by decide) (by decide) (by decide)
  simpa using h

/-- **C10**: redemption with `grant_type=authorization_code` validates
only that the presented code exists in the store with `used = false`:
the conclusion holds for every oracle (in particular every clock value
`o.nowMs`, unconstrained by `ac.createdAt`, so a code older than its
5-minute TTL that the reaper has not swept still redeems), and the
result is identical for any form body carrying the same `grant_type`
and `code` (so `redirect_uri`, `client_id` and `code_verifier` are
never checked — the handler does not even read `client_id`). -/
theorem C10_redemption_ignores_params (c : Codec) (o : Oracle)
    (P : List (String × String)) (s : ServerState) (cd : String) (ac : AuthCode)
    (hg : pget P "grant_type" = some "authorization_code")
    (hc : pget P "code" = some cd) (hcd : cd ≠ "")
    (hstored : mget s.authCodes cd = some ac) (hunused : ac.used = false) :
    (tokenEndpoint c o P s).1 =
      .respond 200 (.tokenIssued
        (createJWT c [("sub", o.randJti), ("scope", scopeStr)] 3600
          (o.nowMs / 1000) o.randJwtJti) "Bearer" 3600 scopeStr)
    ∧ ∀ P' : List (String × String),
        pget P' "grant_type" = some "authorization_code" → pget P' "code" = some cd →
        tokenEndpoint c o P' s = tokenEndpoint c o P s := by
  constructor
  · rw [tokenEndpoint_success c o P s cd ac hg hc hcd hstored hunused]
  · intro P' hg' hc'
    rw [tokenEndpoint_success c o P' s cd ac hg' hc' hcd hstored hunused,
      tokenEndpoint_success c o P s cd ac hg hc hcd hstored hunused]

/-- Witness for C10: the code is 10000000 ms old (far beyond the
300000 ms TTL) and the form body carries a mismatched `redirect_uri`
and a `code_verifier`; redemption still succeeds, and the response is
the same as for a body with no `redirect_uri`/`code_verifier` at all. -/
theorem C10_redemption_ignores_params_witness :
    (tokenEndpoint (mkCodec fpIssued) oStale staleParams stateWithAC).1 =
      .respond 200 (.tokenIssued
        (createJWT (mkCodec fpIssued) [("sub", "JTI"), ("scope", scopeStr)] 3600 10000 "JWTJTI")
        "Bearer" 3600 scopeStr)
    ∧ tokenEndpoint (mkCodec fpIssued) oStale tokenParams stateWithAC =
      tokenEndpoint (mkCodec fpIssued) oStale staleParams stateWithAC := by
  have h := C10_redemption_ignores_params (mkCodec fpIssued) oStale staleParams
    stateWithAC "CODE" acSample (by decide) (by decide) (by decide) (by decide) (by decide)
  exact ⟨by simpa using h.1, h.2 tokenParams (by decide) (by decide)⟩

/-- Pointwise behaviour of the per-store sweep on a present entry. -/
theorem sweepBy_some {α : Type} {nowMs : Int} (ttl : Int) (created : α → Int)
    {m : MapStr α} {k : String} {v : α} (hv : m k = some v) :
    (nowMs - created v > ttl → sweepBy nowMs ttl created m k = none)
    ∧ (nowMs - created v ≤ ttl → sweepBy nowMs ttl created m k = some v) := by
  refine ⟨fun h => ?_, fun h => ?_⟩ <;> simp only [sweepBy, hv]
  · rw [if_pos (by omega)]
  · rw [if_neg (by omega)]

/-- **C8**: at a sweep tick, in each of the three TTL-bound stores,
every entry whose age strictly exceeds the TTL of that store
(600000 ms for transactions, 300000 ms for authorization codes,
3600000 ms for session records) is removed — a subsequent lookup
returns absent — and every entry whose age does not exceed the TTL is
retained.  (The 60-second scheduling of the tick is real-time behaviour
outside the functional model; `sweep` is the per-tick action.) -/
theorem C8_sweep_tick (nowMs : Int) (s : ServerState) (k : String) :
    (∀ txn : OAuthTransaction, s.transactions k = some txn →
      (nowMs - txn.createdAt > 600000 → (sweep nowMs s).transactions k = none)
      ∧ (nowMs - txn.createdAt ≤ 600000 → (sweep nowMs s).transactions k = some txn))
    ∧ (∀ ac : AuthCode, s.authCodes k = some ac →
      (nowMs - ac.createdAt > 300000 → (sweep nowMs s).authCodes k = none)
      ∧ (nowMs - ac.createdAt ≤ 300000 → (sweep nowMs s).authCodes k = some ac))
    ∧ (∀ tr : TokenRecord, s.tokenStore k = some tr →
      (nowMs - tr.createdAt > 3600000 → (sweep nowMs s).tokenStore k = none)
      ∧ (nowMs - tr.createdAt ≤ 3600000 → (sweep nowMs s).tokenStore k = some tr)) := by
  exact ⟨fun txn htxn => sweepBy_some 600000 OAuthTransaction.createdAt htxn,
    fun ac hac => sweepBy_some 300000 AuthCode.createdAt hac,
    fun tr htr => sweepBy_some 3600000 TokenRecord.createdAt htr⟩

/-- Witness for C8: a transaction created at time 0 is removed by a
sweep at 600001 ms and retained by a sweep at 600000 ms. -/
theorem C8_sweep_tick_witness :
    (sweep 600001 stateWithTxn).transactions "TXNID" = none
    ∧ (sweep 600000 stateWithTxn).transactions "TXNID" = some txnSample := by
  refine ⟨((C8_sweep_tick 600001 stateWithTxn "TXNID").1 txnSample (by decide)).1 (by decide),
    ((C8_sweep_tick 600000 stateWithTxn "TXNID").1 txnSample (by decide)).2 (by decide)⟩

/-- **C6**: a `GET /oauth/authorize` request in which `client_id` is
missing, `redirect_uri` is missing, or `response_type` is not `"code"`
gets HTTP 400 `invalid_request` and leaves the whole state — in
particular the transaction store — unchanged; a request with all three
present (non-empty, the truthiness check of the source) and
`response_type=code` stores a transaction under the fresh random id and
gets a 302 redirect to the upstream authorization endpoint. -/
theorem C6_authorize_validation (c : Codec) (o : Oracle) (req : Request) (s : ServerState)
    (hp : req.path = "/oauth/authorize") (hm : req.method = "GET") :
    ((¬ truthy (pget req.query "client_id") ∨ ¬ truthy (pget req.query "redirect_uri")
        ∨ pget req.query "response_type" ≠ some "code") →
      handleRequest c o req s =
        (.respond 400 (.oauthError "invalid_request" (some "Missing required parameters")), s))
    ∧ (truthy (pget req.query "client_id") → truthy (pget req.query "redirect_uri") →
        pget req.query "response_type" = some "code" →
      (handleRequest c o req s).2.transactions o.randTxnId = some (authTxnOf o req)
      ∧ (handleRequest c o req s).1 =
        .redirect
          { base := LINKEDIN_AUTH_ENDPOINT,
            params := [("response_type", "code"), ("client_id", upstreamClientId),
                       ("redirect_uri", baseUrl ++ "/oauth/callback"),
                       ("state", o.randTxnId), ("scope", scopeStr)] }) := by
  rw [handleRequest_authorize c o req s hp hm]
  constructor
  · intro hbad
    exact authorizeEndpoint_reject o req s hbad
  · intro hcid hre hrt
    rw [authorizeEndpoint_accept o req s hcid hre hrt]
    exact ⟨by simp [mset], rfl⟩

/-- Witness for C6: a request missing `redirect_uri` is rejected with
400 and does not change the state; a fully valid request stores the
transaction and is redirected to the upstream endpoint. -/
theorem C6_authorize_validation_witness :
    handleRequest (mkCodec fpIssued) oracleBase authReqBad initialState =
      (.respond 400 (.oauthError "invalid_request" (some "Missing required parameters")),
        initialState)
    ∧ (handleRequest (mkCodec fpIssued) oracleBase authReqGood initialState).2.transactions
        "TXNID" = some (authTxnOf oracleBase authReqGood)
    ∧ (handleRequest (mkCodec fpIssued) oracleBase authReqGood initialState).1 =
      .redirect
        { base := LINKEDIN_AUTH_ENDPOINT,
          params := [("response_type", "code"), ("client_id", upstreamClientId),
                     ("redirect_uri", baseUrl ++ "/oauth/callback"),
                     ("state", "TXNID"), ("scope", scopeStr)] } := by
  have hbad := (C6_authorize_validation (mkCodec fpIssued) oracleBase authReqBad
    initialState rfl rfl).1 (by decide)
  have hgood := (C6_authorize_validation (mkCodec fpIssued) oracleBase authReqGood
    initialState rfl rfl).2 (by decide) (by decide) (by decide)
  exact ⟨hbad, hgood.1, hgood.2⟩

/-- Counterexample to **C5** as stated: a callback with a live
transaction whose upstream exchange fails does NOT consume the
transaction — after the handler answers (a 302 carrying
`error=server_error`), the same transaction is still stored under the
same state value, so a second callback with that state would correlate
again.  (The claim asserts deletion regardless of exchange outcome.) -/
theorem C5_counterexample :
    (handleRequest (mkCodec fpIssued) oErr cbReq stateWithTxn).2.transactions "TXNID" =
      some txnSample
    ∧ (handleRequest (mkCodec fpIssued) oErr cbReq stateWithTxn).1 =
      .redirect
        { base := "https://app/cb",
          params := [("error", "server_error"),
                     ("error_description", "upstream exchange failed"),
                     ("state", "xyz")] } := by
  decide

/-- **C5** (amended): when `GET /oauth/callback` arrives with a state
matching a live transaction (and no upstream `error` parameter), the
transaction is deleted exactly when the upstream code exchange
succeeds; when the exchange fails, the transaction remains stored
unchanged (until its TTL sweep), so the same state value can match a
later callback. -/
theorem C5_transaction_consumed_only_on_success (c : Codec) (o : Oracle) (req : Request)
    (s : ServerState) (txnId : String) (txn : OAuthTransaction)
    (hp : req.path = "/oauth/callback") (hm : req.method = "GET")
    (herr : truthy (pget req.query "error") = false)
    (hcode : truthy (pget req.query "code") = true)
    (hst : pget req.query "state" = some txnId) (hne : txnId ≠ "")
    (htxn : mget s.transactions txnId = some txn)
    (hurl : o.urlOk txn.redirectUri = true) :
    (∀ bundle, o.exchange = .ok bundle →
      (handleRequest c o req s).2.transactions txnId = none)
    ∧ (∀ err, o.exchange = .error err →
      (handleRequest c o req s).2.transactions txnId = some txn) := by
  constructor
  · intro bundle hex
    rw [handleRequest_callback c o req s hp hm,
      callbackEndpoint_success o req s txnId txn bundle herr hcode hst hne htxn hex hurl]
    simp [mdel]
  · intro err hex
    rw [handleRequest_callback c o req s hp hm,
      callbackEndpoint_exchange_error o req s txnId txn err herr hcode hst hne htxn hex hurl]
    exact htxn

/-- Witness for the amended C5: with a successful exchange the
transaction `"TXNID"` is gone afterwards; with a failing exchange it is
still present. -/
theorem C5_transaction_consumed_only_on_success_witness :
    (handleRequest (mkCodec fpIssued) oracleBase cbReq stateWithTxn).2.transactions
      "TXNID" = none
    ∧ (handleRequest (mkCodec fpIssued) oErr cbReq stateWithTxn).2.transactions
      "TXNID" = some txnSample := by
  have hok := C5_transaction_consumed_only_on_success (mkCodec fpIssued) oracleBase cbReq
    stateWithTxn "TXNID" txnSample rfl rfl (by decide) (by decide) (by decide) (by decide)
    (by decide) (by decide)
  have hfail := C5_transaction_consumed_only_on_success (mkCodec fpIssued) oErr cbReq
    stateWithTxn "TXNID" txnSample rfl rfl (by decide) (by decide) (by decide) (by decide)
    (by decide) (by decide)
  exact ⟨hok.1 sampleSession rfl, hfail.2 "upstream exchange failed" rfl⟩

/-- **C9**: a `GET /oauth/authorize` request that is valid but carries
no `state` parameter still succeeds: the proxy substitutes the freshly
generated random hex value (`o.randState`, the model of
`crypto.randomBytes(16).toString("hex")`), stores it as the state of
the created transaction, and that generated value — not an empty or
absent state — is echoed in the eventual 302 redirect back to the
downstream redirect URI after the upstream callback. -/
theorem C9_generated_state_echoed (c c₂ : Codec) (o o₂ : Oracle) (req req₂ : Request)
    (s : ServerState)
    (hp : req.path = "/oauth/authorize") (hm : req.method = "GET")
    (hstate : pget req.query "state" = none)
    (hcid : truthy (pget req.query "client_id"))
    (hre : truthy (pget req.query "redirect_uri"))
    (hrt : pget req.query "response_type" = some "code")
    (hp₂ : req₂.path = "/oauth/callback") (hm₂ : req₂.method = "GET")
    (herr₂ : truthy (pget req₂.query "error") = false)
    (hcode₂ : truthy (pget req₂.query "code") = true)
    (hst₂ : pget req₂.query "state" = some o.randTxnId) (hne : o.randTxnId ≠ "")
    (bundle : LinkedInSession) (hex : o₂.exchange = .ok bundle)
    (hurl : o₂.urlOk ((pget req.query "redirect_uri").getD "") = true) :
    (handleRequest c o req s).1 =
      .redirect
        { base := LINKEDIN_AUTH_ENDPOINT,
          params := [("response_type", "code"), ("client_id", upstreamClientId),
                     ("redirect_uri", baseUrl ++ "/oauth/callback"),
                     ("state", o.randTxnId), ("scope", scopeStr)] }
    ∧ (handleRequest c o req s).2.transactions o.randTxnId = some (authTxnOf o req)
    ∧ (authTxnOf o req).state = o.randState
    ∧ (handleRequest c₂ o₂ req₂ (handleRequest c o req s).2).1 =
      .redirect
        { base := (pget req.query "redirect_uri").getD "",
          params := [("code", o₂.randOurCode), ("state", o.randState)] } := by
  have hstored : (handleRequest c o req s).2.transactions o.randTxnId =
      some (authTxnOf o req) := by
    rw [handleRequest_authorize c o req s hp hm,
      authorizeEndpoint_accept o req s hcid hre hrt]
    simp [mset]
  have htxnstate : (authTxnOf o req).state = o.randState := by
    simp [authTxnOf, hstate]
  have htxnuri : (authTxnOf o req).redirectUri = (pget req.query "redirect_uri").getD "" := by
    simp [authTxnOf]
  refine ⟨?_, hstored, htxnstate, ?_⟩
  · rw [handleRequest_authorize c o req s hp hm,
      authorizeEndpoint_accept o req s hcid hre hrt]
  · rw [handleRequest_callback c₂ o₂ req₂ _ hp₂ hm₂,
      callbackEndpoint_success o₂ req₂ _ o.randTxnId (authTxnOf o req) bundle herr₂
        hcode₂ hst₂ hne hstored hex (htxnuri ▸ hurl)]
    rw [htxnstate, htxnuri]

/-- Witness for C9: the authorize request has no `state`; the stored
transaction carries the generated `"GENSTATE"`, and the callback
redirect to `https://app/cb` echoes `state=GENSTATE`. -/
theorem C9_generated_state_echoed_witness :
    ((handleRequest (mkCodec fpIssued) oracleBase authReqNoState initialState).2.transactions
      "TXNID").map OAuthTransaction.state = some "GENSTATE"
    ∧ (handleRequest (mkCodec fpIssued) oracleBase cbReq
        (handleRequest (mkCodec fpIssued) oracleBase authReqNoState initialState).2).1 =
      .redirect
        { base := "https://app/cb",
          params := [("code", "OURCODE"), ("state", "GENSTATE")] } := by
  have h := C9_generated_state_echoed (mkCodec fpIssued) (mkCodec fpIssued) oracleBase
    oracleBase authReqNoState cbReq initialState rfl rfl (by decide) (by decide)
    (by decide) (by decide) rfl rfl (by decide) (by decide) (by decide) (by decide)
    sampleSession rfl (by decide)
  have e1 : (handleRequest (mkCodec fpIssued) oracleBase authReqNoState
      initialState).2.transactions "TXNID" = some (authTxnOf oracleBase authReqNoState) :=
    h.2.1
  refine ⟨?_, h.2.2.2⟩
  rw [e1, Option.map_some']
  exact congrArg some h.2.2.1

/-- Counterexample to **C2** as stated: `verifyJWT` does NOT fail
closed on every token whose three-part structure is malformed.  A token
with four dot-separated segments is structurally malformed, yet the
destructuring `const [h, p, s] = token.split(".")` silently ignores the
fourth segment, so the token verifies and returns claims.  (With the
real HMAC primitives the same input is realizable by appending `".x"`
to any genuinely valid token.) -/
theorem C2_counterexample :
    jwtSplit "HDR.PAY.SIG.x" = ["HDR", "PAY", "SIG", "x"]
    ∧ verifyJWT (mkCodec fpNoExp) 0 "HDR.PAY.SIG.x" = some fpNoExp := by decide

/-- **C2** (amended): `verifyJWT` never throws (it is a total function
in the model, the `try/catch` of the source), and it returns claims
only when the third dot-segment equals the recomputed HMAC over the
first two segments, the second segment decodes to a payload, and any
present non-zero expiry is not in the past; consequently it fails
closed on tokens with fewer than three segments, on any signature
mismatch (including any single-character change that alters the
signature segment), and on a past non-zero expiry.  Unlike the original
claim: segments beyond the third are ignored (a valid token with extra
segments appended still verifies), and an expiry field equal to `0` is
not treated as expired (the JS truthiness test skips it). -/
theorem C2_verify_fails_closed (c : Codec) (nowSec : Int) (token : String) (p : JWTPayload)
    (hv : verifyJWT c nowSec token = some p) :
    (jwtSplit token).get? 2 =
      some (c.hmac (orUndefined ((jwtSplit token).get? 0) ++ "." ++
        orUndefined ((jwtSplit token).get? 1)))
    ∧ c.dec (orUndefined ((jwtSplit token).get? 1)) = some p
    ∧ (∀ e, p.exp = some e → e = 0 ∨ nowSec ≤ e) := by
  simp only [verifyJWT] at hv
  by_cases hsig : (jwtSplit token).get? 2 =
      some (c.hmac (orUndefined ((jwtSplit token).get? 0) ++ "." ++
        orUndefined ((jwtSplit token).get? 1)))
  · rw [if_pos hsig] at hv
    refine ⟨hsig, ?_⟩
    cases hd : c.dec (orUndefined ((jwtSplit token).get? 1)) with
    | none => rw [hd] at hv; cases hv
    | some payload =>
      rw [hd] at hv
      simp only at hv
      cases he : payload.exp with
      | none =>
        rw [he] at hv
        simp only at hv
        cases hv
        exact ⟨rfl, fun e hpe => absurd (he ▸ hpe) (by simp)⟩
      | some e =>
        rw [he] at hv
        simp only at hv
        by_cases hc : e ≠ 0 ∧ e < nowSec
        · rw [if_pos hc] at hv; cases hv
        · rw [if_neg hc] at hv
          cases hv
          refine ⟨rfl, fun e' hpe => ?_⟩
          rw [he] at hpe
          cases hpe
          omega
  · rw [if_neg hsig] at hv
    cases hv

/-- Witness for the amended C2: a concrete well-formed token; its third
segment is the recomputed signature, its payload decodes, and its
expiry is not in the past. -/
theorem C2_verify_fails_closed_witness :
    (jwtSplit "HDR.PAY.SIG").get? 2 =
      some ((mkCodec fpIssued).hmac (orUndefined ((jwtSplit "HDR.PAY.SIG").get? 0) ++ "." ++
        orUndefined ((jwtSplit "HDR.PAY.SIG").get? 1)))
    ∧ (mkCodec fpIssued).dec (orUndefined ((jwtSplit "HDR.PAY.SIG").get? 1)) = some fpIssued
    ∧ ((3600 : Int) = 0 ∨ (0 : Int) ≤ 3600) := by
  have h := C2_verify_fails_closed (mkCodec fpIssued) 0 "HDR.PAY.SIG" fpIssued (by decide)
  exact ⟨h.1, h.2.1, h.2.2 3600 (by decide)⟩

/-- **C3**: for every claims object `C` and TTL `t > 0`, verifying the
token produced by `createJWT(C, t)` within `t` seconds of creation
succeeds and returns the payload equal to `C` extended with exactly the
issued-at field (`iat = nowSec`), the expiry field (`exp = iat + t`),
and the fresh random identifier field (`jti`) — that is,
`mintedPayload C t nowSec jtiRand`.  The codec hypotheses state, for
the values involved, the properties of the real library primitives:
base64url outputs contain no `"."` and decoding inverts encoding;
`jtiRand` stands for the fresh `crypto.randomBytes(16)` draw. -/
theorem C3_token_roundtrip (c : Codec) (C : List (String × String)) (t nowSec nowSec2 : Int)
    (jtiRand : String)
    (_ht : 0 < t)
    (hh : '.' ∉ c.headerB64.data)
    (hp : '.' ∉ (c.enc (mintedPayload C t nowSec jtiRand)).data)
    (hs : '.' ∉ (c.hmac (c.headerB64 ++ "." ++ c.enc (mintedPayload C t nowSec jtiRand))).data)
    (hdec : c.dec (c.enc (mintedPayload C t nowSec jtiRand)) =
      some (mintedPayload C t nowSec jtiRand))
    (hnow : nowSec2 ≤ nowSec + t) :
    verifyJWT c nowSec2 (createJWT c C t nowSec jtiRand) =
      some (mintedPayload C t nowSec jtiRand) :=
  verifyJWT_createJWT c C t nowSec jtiRand nowSec2 _ rfl hh hp hs hdec hnow

/-- Witness for C3: claims `[("k","v")]`, TTL 10, created at 0,
verified at 5. -/
theorem C3_token_roundtrip_witness :
    verifyJWT (mkCodec fp3) 5 (createJWT (mkCodec fp3) [("k", "v")] 10 0 "JRAND") =
      some fp3 := by
  have h := C3_token_roundtrip (mkCodec fp3) [("k", "v")] 10 0 5 "JRAND" (by decide)
    (by decide) (by decide) (by decide) (by decide) (by decide)
  exact h

/-- **C4**: after a successful redemption at `POST /oauth/token`, the
subject identifier (`sub = o.randJti`) embedded in the returned signed
token is the exact key under which the session record holding the
upstream credential bundle is stored, so the tool authenticator applied
to `Bearer <token>` yields exactly the bundle the redeemed code carried;
and any verified signed token whose `sub` has no session record yields
unauthenticated (`none`).  The codec hypotheses state the base64url/HMAC
properties of the real primitives on the minted payload. -/
theorem C4_token_session_binding (c : Codec) (o : Oracle) (P : List (String × String))
    (s : ServerState) (cd : String) (ac : AuthCode) (nowSec2 : Int)
    (hg : pget P "grant_type" = some "authorization_code")
    (hc : pget P "code" = some cd) (hcd : cd ≠ "")
    (hstored : mget s.authCodes cd = some ac) (hunused : ac.used = false)
    (hjti : o.randJti ≠ "")
    (hh : '.' ∉ c.headerB64.data)
    (hp2 : '.' ∉ (c.enc (mintedPayload [("sub", o.randJti), ("scope", scopeStr)] 3600
      (o.nowMs / 1000) o.randJwtJti)).data)
    (hs2 : '.' ∉ (c.hmac (c.headerB64 ++ "." ++ c.enc (mintedPayload
      [("sub", o.randJti), ("scope", scopeStr)] 3600 (o.nowMs / 1000) o.randJwtJti))).data)
    (hdec : c.dec (c.enc (mintedPayload [("sub", o.randJti), ("scope", scopeStr)] 3600
        (o.nowMs / 1000) o.randJwtJti)) =
      some (mintedPayload [("sub", o.randJti), ("scope", scopeStr)] 3600
        (o.nowMs / 1000) o.randJwtJti))
    (hnow : nowSec2 ≤ o.nowMs / 1000 + 3600) :
    (tokenEndpoint c o P s).1 =
      .respond 200 (.tokenIssued (createJWT c [("sub", o.randJti), ("scope", scopeStr)]
        3600 (o.nowMs / 1000) o.randJwtJti) "Bearer" 3600 scopeStr)
    ∧ mget (tokenEndpoint c o P s).2.tokenStore o.randJti =
        some { linkedInTokens := ac.linkedInTokens, createdAt := o.nowMs }
    ∧ authenticate c nowSec2
        (some ("Bearer " ++ createJWT c [("sub", o.randJti), ("scope", scopeStr)] 3600
          (o.nowMs / 1000) o.randJwtJti))
        (tokenEndpoint c o P s).2.tokenStore = some ac.linkedInTokens
    ∧ (∀ (token : String) (pay : JWTPayload) (sub : String),
        verifyJWT c nowSec2 token = some pay → getClaim pay.claims "sub" = some sub →
        sub ≠ "" → mget (tokenEndpoint c o P s).2.tokenStore sub = none →
        authenticate c nowSec2 (some ("Bearer " ++ token))
          (tokenEndpoint c o P s).2.tokenStore = none) := by
  have hver := verifyJWT_createJWT c [("sub", o.randJti), ("scope", scopeStr)] 3600
    (o.nowMs / 1000) o.randJwtJti nowSec2 _ rfl hh hp2 hs2 hdec hnow
  simp only [tokenEndpoint_success c o P s cd ac hg hc hcd hstored hunused]
  refine ⟨by trivial, by simp [mget_mset_self], ?_, ?_⟩
  · rw [authenticate]
    simp only [strStartsWith_append, if_true, strDrop_bearer, hver]
    simp [getClaim, mintedPayload, hjti, mget_mset_self]
  · intro token pay sub hv hsub hne hnone
    rw [authenticate]
    simp only [strStartsWith_append, if_true, strDrop_bearer, hv, hsub]
    simp only [mget] at hnone
    simp [mget, hne, hnone]

/-- Witness for C4: concrete redemption of `"CODE"`; the token store
key `"JTI"` holds the upstream bundle, and authenticating with the
issued bearer token returns exactly `sampleSession`. -/
theorem C4_token_session_binding_witness :
    (tokenEndpoint (mkCodec fpIssued) oracleBase tokenParams stateWithAC).1 =
      .respond 200 (.tokenIssued (createJWT (mkCodec fpIssued)
        [("sub", "JTI"), ("scope", scopeStr)] 3600 0 "JWTJTI") "Bearer" 3600 scopeStr)
    ∧ mget (tokenEndpoint (mkCodec fpIssued) oracleBase tokenParams
        stateWithAC).2.tokenStore "JTI" =
      some { linkedInTokens := sampleSession, createdAt := 0 }
    ∧ authenticate (mkCodec fpIssued) 0
        (some ("Bearer " ++ createJWT (mkCodec fpIssued)
          [("sub", "JTI"), ("scope", scopeStr)] 3600 0 "JWTJTI"))
        (tokenEndpoint (mkCodec fpIssued) oracleBase tokenParams
          stateWithAC).2.tokenStore = some sampleSession := by
  have h := C4_token_session_binding (mkCodec fpIssued) oracleBase tokenParams stateWithAC
    "CODE" acSample 0 (by decide) (by decide) (by decide) (by decide) (by decide)
    (by decide) (by decide) (by decide) (by decide) (by decide) (by decide)
  exact ⟨h.1, h.2.1, h.2.2.1⟩

/-- The registration handler faults exactly when its body fails to
parse as JSON (`JSON.parse` throwing out of the async handler). -/
theorem registerEndpoint_fault_iff (o : Oracle) (req : Request) (s : ServerState) :
    (∃ msg, (registerEndpoint o req s).1 = .fault msg) ↔ o.parseJson req.body = none := by
  rw [registerEndpoint]
  cases h : o.parseJson req.body <;> simp [h]

/-- The authorize handler never faults. -/
theorem authorizeEndpoint_no_fault (o : Oracle) (req : Request) (s : ServerState) :
    ∀ msg, (authorizeEndpoint o req s).1 ≠ .fault msg := by
  intro msg
  simp only [authorizeEndpoint]
  split <;> simp

/-- The token handler never faults. -/
theorem tokenEndpoint_no_fault (c : Codec) (o : Oracle) (P : List (String × String))
    (s : ServerState) : ∀ msg, (tokenEndpoint c o P s).1 ≠ .fault msg := by
  intro msg
  simp only [tokenEndpoint]
  split
  · split
    · simp
    · split
      · simp
      · split <;> simp
  · simp

/-- The callback handler faults exactly when a live transaction is
matched and `new URL(txn.redirectUri)` fails (it throws inside the
`try` and again inside the `catch`). -/
theorem callbackEndpoint_fault_iff (o : Oracle) (req : Request) (s : ServerState) :
    (∃ msg, (callbackEndpoint o req s).1 = .fault msg) ↔
      (truthy (pget req.query "error") = false
        ∧ truthy (pget req.query "code") = true
        ∧ truthy (pget req.query "state") = true
        ∧ ∃ txn, mget s.transactions ((pget req.query "state").getD "") = some txn
            ∧ o.urlOk txn.redirectUri = false) := by
  simp only [callbackEndpoint]
  split_ifs with h1 h2
  · refine iff_of_false (by simp) ?_
    rintro ⟨hf, -⟩
    rw [hf] at h1
    simp at h1
  · refine iff_of_false (by simp) ?_
    rintro ⟨-, hct, hst, -⟩
    rcases h2 with h | h
    · exact h hct
    · exact h hst
  · have he' : truthy (pget req.query "error") = false := by
      simpa using h1
    have hcs := not_or.mp h2
    have hc' : truthy (pget req.query "code") = true := by
      simpa using not_not.mp hcs.1
    have hs' : truthy (pget req.query "state") = true := by
      simpa using not_not.mp hcs.2
    cases htxn : mget s.transactions ((pget req.query "state").getD "") with
    | none => simp [htxn, he', hc', hs']
    | some txn =>
      cases hex : o.exchange with
      | ok bundle =>
        by_cases hurl : o.urlOk txn.redirectUri = true
        · simp [hex, hurl, he', hc', hs', htxn]
        · have hurl' : o.urlOk txn.redirectUri = false := by simpa using hurl
          simp [hex, hurl', he', hc', hs', htxn]
      | error err =>
        by_cases hurl : o.urlOk txn.redirectUri = true
        · simp [hex, hurl, he', hc', hs', htxn]
        · have hurl' : o.urlOk txn.redirectUri = false := by simpa using hurl
          simp [hex, hurl', he', hc', hs', htxn]

/-- Counterexample to **C7** as stated: `POST /oauth/register` with a
body that is not valid JSON is NOT handled locally — `JSON.parse`
throws out of the async handler (line 201 has no `try`/`catch`), so no
HTTP response is produced and the error escapes as an uncaught fault
(an unhandled promise rejection, which crashes a default-configured
Node.js process). -/
theorem C7_counterexample :
    (handleRequest (mkCodec fpIssued) oBadJson regReqBad initialState).1 =
      .fault "SyntaxError: Unexpected token in JSON" := by decide

/-- **C7** (amended): the request handler produces a locally-handled
outcome for every request (requests under `/mcp` are deliberately left
for the MCP layer, with no response written) with exactly two
exceptions, in which an error escapes as an uncaught fault:
`POST /oauth/register` whose body is not valid JSON, and
`/oauth/callback` matching a live transaction whose stored
`redirect_uri` is not a parseable URL. -/
theorem C7_fault_characterization (c : Codec) (o : Oracle) (req : Request)
    (s : ServerState) :
    (∃ msg, (handleRequest c o req s).1 = .fault msg) ↔
      (req.method ≠ "OPTIONS"
        ∧ ((req.path = "/oauth/register" ∧ req.method = "POST"
              ∧ o.parseJson req.body = none)
           ∨ (req.path = "/oauth/callback"
              ∧ truthy (pget req.query "error") = false
              ∧ truthy (pget req.query "code") = true
              ∧ truthy (pget req.query "state") = true
              ∧ ∃ txn, mget s.transactions ((pget req.query "state").getD "") = some txn
                  ∧ o.urlOk txn.redirectUri = false))) := by
  rw [handleRequest]
  split_ifs with h1 h2 h3 h4 h5 h6 h7 h8
  · simp [h1]
  · simp [h2]
  · rw [registerEndpoint_fault_iff]
    simp [h3.1, h3.2]
  · have hnf := authorizeEndpoint_no_fault o req s
    simp [h4, hnf]
  · rw [callbackEndpoint_fault_iff]
    simp [h5, h1]
  · have hnf := tokenEndpoint_no_fault c o (o.parseForm req.body) s
    simp [h6.1, h6.2, hnf]
  · simp [h7]
  · refine iff_of_false (by simp) ?_
    rintro ⟨-, h | h⟩
    · exact h3 ⟨h.1, h.2.1⟩
    · exact h5 h.1
  · refine iff_of_false (by simp) ?_
    rintro ⟨-, h | h⟩
    · exact h3 ⟨h.1, h.2.1⟩
    · exact h5 h.1

example : jwtSplit "a.b.c" = ["a", "b", "c"] := by decide
example : jwtSplit "a.b.c.d" = ["a", "b", "c", "d"] := by decide
example : jwtSplit "" = [""] := by decide
example : jwtSplit "a..b" = ["a", "", "b"] := by decide
example : verifyJWT (mkCodec fpIssued) 0 "HDR.PAY.SIG" = some fpIssued := by decide
example : verifyJWT (mkCodec fpIssued) 0 "HDR.PAY.BAD" = none := by decide
example : verifyJWT (mkCodec fpIssued) 0 "HDR.PAY" = none := by decide

end LinkedInMCP
